import Mathlib

/-!
Verification development for the cart-validation scripts of this repository
(`src/assets/unified-cart-validator.js`, `src/assets/cart-category-validation.js`,
`src/assets/cart-minimum-value.js`, `src/assets/cart-category-detection.js`).

The JavaScript classes are embedded shallowly:

* `Product` mirrors the JSON record returned by `GET /products/<handle>.js`;
  fields that may be `undefined` in JavaScript are `Option`s.
* the page environment (`window.Shopify.cart`, the DOM elements read by the
  scripts) is abstracted by explicit records (`Env`, `TotalEnv`); a handle is
  resolved to a product through `Env.productOf` (the fetch-plus-cache path,
  where a failed fetch yields `none`), and `Env.collectionsOf` is the list of
  collections the `fetchProductCollections` DOM scan yields for a product id
  (missing attribute or JSON parse failure contributes nothing, per source).
* DOM mutation by the unified validator is state passing over `UDom`; the
  legacy validators' lock/priority attributes are state passing over `LDom`.
* a JavaScript exception raised inside a `try` block is an explicit
  `Option Unit` / `Except Unit` input of the embedded entry point.
-/

/-- `needle` occurs as a contiguous sublist of the second argument. -/
def charsInfixOf (needle : List Char) : List Char → Bool
  | [] => needle.isEmpty
  | c :: rest => needle.isPrefixOf (c :: rest) || charsInfixOf needle rest

/-- JavaScript `a.toLowerCase().includes(kw)`: `kw` occurs as a contiguous
substring of the lower-cased `a` (lower-casing is done character by
character, which agrees with `toLowerCase` on the ASCII keywords used by
the validators). -/
def jsLowerIncludes (s kw : String) : Bool :=
  charsInfixOf kw.toList (s.toList.map Char.toLower)

/-- One metafield of a product record (namespace, key, value). -/
structure Metafield where
  «namespace» : String
  key : String
  value : String
  deriving DecidableEq

/-- The product record fetched from `/products/<handle>.js`; every field the
classifiers inspect may be absent. -/
structure Product where
  id : Option Nat
  product_type : Option String
  handle : Option String
  tags : Option (List String)
  metafields : Option (List Metafield)
  deriving DecidableEq

/-- Page environment seen by the category classifiers: handle resolution
(cache or fetch; `none` models a failed fetch / unknown product) and the
collection list the DOM scan of `fetchProductCollections` produces. -/
structure Env where
  productOf : String → Option Product
  collectionsOf : Option Nat → List String

namespace UnifiedCartValidator

/-- `this.restrictedCategory` of `UnifiedCartValidator`. -/
def restrictedCategory : String := "cerveja"

/-- `this.requiredCategories` of `UnifiedCartValidator`. -/
def requiredCategories : List String := ["kit churrasco", "avulsos"]

/-- `this.errorMessages.category` of `UnifiedCartValidator`. -/
def categoryErrorMessage : String :=
  "Produtos da categoria \"cerveja\" só podem ser comprados com \"kit churrasco\" OU \"avulsos\""

/-- `this.errorMessages.minimum` of `UnifiedCartValidator`. -/
def minimumErrorMessage : String :=
  "Valor mínimo de R$90 para finalizar a compra"

/-- `UnifiedCartValidator.isBeerProduct` (unified-cart-validator.js 198-244):
null product is not beer; otherwise the five strategies (product_type, handle,
tags, collections, `product`/`category` metafield) are tried in order, each
a case-insensitive substring match against `restrictedCategory`; a missing
field is skipped. -/
def isBeerProduct (env : Env) : Option Product → Bool
  | none => false
  | some product =>
    (match product.product_type with
     | some pt => jsLowerIncludes pt restrictedCategory
     | none => false) ||
    (match product.handle with
     | some h => jsLowerIncludes h restrictedCategory
     | none => false) ||
    (match product.tags with
     | some tags => tags.any fun tag => jsLowerIncludes tag restrictedCategory
     | none => false) ||
    ((env.collectionsOf product.id).any fun c => jsLowerIncludes c restrictedCategory) ||
    (match product.metafields with
     | some mfs =>
       match mfs.find? fun m => m.«namespace» == "product" && m.key == "category" with
       | some mf => jsLowerIncludes mf.value restrictedCategory
       | none => false
     | none => false)

/-- `UnifiedCartValidator.isRequiredCategoryProduct`
(unified-cart-validator.js 251-313): same five strategies, matching any of
`requiredCategories`. -/
def isRequiredCategoryProduct (env : Env) : Option Product → Bool
  | none => false
  | some product =>
    (match product.product_type with
     | some pt => requiredCategories.any fun category => jsLowerIncludes pt category
     | none => false) ||
    (match product.handle with
     | some h => requiredCategories.any fun category => jsLowerIncludes h category
     | none => false) ||
    (match product.tags with
     | some tags => tags.any fun tag =>
         requiredCategories.any fun category => jsLowerIncludes tag category
     | none => false) ||
    ((env.collectionsOf product.id).any fun c =>
       requiredCategories.any fun category => jsLowerIncludes c category) ||
    (match product.metafields with
     | some mfs =>
       match mfs.find? fun m => m.«namespace» == "product" && m.key == "category" with
       | some mf => requiredCategories.any fun category => jsLowerIncludes mf.value category
       | none => false
     | none => false)

/-- `UnifiedCartValidator.hasBeerProducts` (319-337): `none` models a missing
`window.Shopify.cart.items`; otherwise each item handle is resolved through
cache/fetch and classified. -/
def hasBeerProducts (env : Env) : Option (List String) → Bool
  | none => false
  | some items => items.any fun handle => isBeerProduct env (env.productOf handle)

/-- `UnifiedCartValidator.hasRequiredCategoryProducts` (343-361). -/
def hasRequiredCategoryProducts (env : Env) : Option (List String) → Bool
  | none => false
  | some items => items.any fun handle => isRequiredCategoryProduct env (env.productOf handle)

/-- Result record of `validateCategories`: `{ valid, message }`. -/
structure ValidationResult where
  valid : Bool
  message : String
  deriving DecidableEq

/-- `UnifiedCartValidator.validateCategories` (367-383). -/
def validateCategories (env : Env) (cart : Option (List String)) : ValidationResult :=
  let hasBeer := hasBeerProducts env cart
  if !hasBeer then
    { valid := true, message := "" }
  else
    let hasRequiredCategory := hasRequiredCategoryProducts env cart
    { valid := hasRequiredCategory
      message := if hasRequiredCategory then "" else categoryErrorMessage }

end UnifiedCartValidator

namespace CartCategoryValidation
/-!
First `CartCategoryValidation` class of `cart-category-validation.js`
(lines 9-918). Its classifiers repeat the unified validator's strategies
verbatim (the keyword field is named `beerCategory` there).
-/

/-- `this.beerCategory` of `CartCategoryValidation`. -/
def beerCategory : String := "cerveja"

/-- `this.requiredCategories` of `CartCategoryValidation`. -/
def requiredCategories : List String := ["kit churrasco", "avulsos"]

/-- `this.errorMessage` of `CartCategoryValidation`. -/
def errorMessage : String :=
  "Produtos da categoria \"cerveja\" só podem ser comprados com \"kit churrasco\" OU \"avulsos\""

/-- `CartCategoryValidation.isBeerProduct` (cart-category-validation.js
306-352), identical strategies to the unified classifier. -/
def isBeerProduct (env : Env) : Option Product → Bool
  | none => false
  | some product =>
    (match product.product_type with
     | some pt => jsLowerIncludes pt beerCategory
     | none => false) ||
    (match product.handle with
     | some h => jsLowerIncludes h beerCategory
     | none => false) ||
    (match product.tags with
     | some tags => tags.any fun tag => jsLowerIncludes tag beerCategory
     | none => false) ||
    ((env.collectionsOf product.id).any fun c => jsLowerIncludes c beerCategory) ||
    (match product.metafields with
     | some mfs =>
       match mfs.find? fun m => m.«namespace» == "product" && m.key == "category" with
       | some mf => jsLowerIncludes mf.value beerCategory
       | none => false
     | none => false)

/-- `CartCategoryValidation.isRequiredCategoryProduct`
(cart-category-validation.js 359-421). -/
def isRequiredCategoryProduct (env : Env) : Option Product → Bool
  | none => false
  | some product =>
    (match product.product_type with
     | some pt => requiredCategories.any fun category => jsLowerIncludes pt category
     | none => false) ||
    (match product.handle with
     | some h => requiredCategories.any fun category => jsLowerIncludes h category
     | none => false) ||
    (match product.tags with
     | some tags => tags.any fun tag =>
         requiredCategories.any fun category => jsLowerIncludes tag category
     | none => false) ||
    ((env.collectionsOf product.id).any fun c =>
       requiredCategories.any fun category => jsLowerIncludes c category) ||
    (match product.metafields with
     | some mfs =>
       match mfs.find? fun m => m.«namespace» == "product" && m.key == "category" with
       | some mf => requiredCategories.any fun category => jsLowerIncludes mf.value category
       | none => false
     | none => false)

/-- `CartCategoryValidation.hasBeerProducts` (426-444). -/
def hasBeerProducts (env : Env) : Option (List String) → Bool
  | none => false
  | some items => items.any fun handle => isBeerProduct env (env.productOf handle)

/-- `CartCategoryValidation.hasRequiredCategoryProducts` (449-467). -/
def hasRequiredCategoryProducts (env : Env) : Option (List String) → Bool
  | none => false
  | some items => items.any fun handle => isRequiredCategoryProduct env (env.productOf handle)

/-- `CartCategoryValidation.isCartValid` (473-501), the happy path of the
`try` block: valid when no beer item is present, otherwise valid iff some
required-category item is present.  The `catch` branch (return `true` on an
exception) is modelled separately by `isCartValidE`. -/
def isCartValid (env : Env) (cart : Option (List String)) : Bool :=
  if !hasBeerProducts env cart then
    true
  else
    hasRequiredCategoryProducts env cart

/-- `CartCategoryValidation.isCartValid` with its `try`/`catch`: an
exception anywhere in the body (`exc = some ()`) is caught and the method
returns `true` (fail open, lines 496-500). -/
def isCartValidE (exc : Option Unit) (env : Env) (cart : Option (List String)) : Bool :=
  match exc with
  | some _ => true
  | none => isCartValid env cart

end CartCategoryValidation

namespace CartCategoryValidationV2
/-!
Second `CartCategoryValidation` class of `cart-category-validation.js`
(lines 926-1329).  This version classifies the cart items directly from the
fields of `window.Shopify.cart.items` (`product_type` and `handle` only; no
fetch, no tags/collections/metafields).
-/

/-- `this.beerCategory` of the second `CartCategoryValidation`. -/
def beerCategory : String := "cerveja"

/-- `this.requiredCategories` of the second `CartCategoryValidation`. -/
def requiredCategories : List String := ["kit churrasco", "avulsos"]

/-- One element of `window.Shopify.cart.items` as inspected by this class. -/
structure CartItem where
  product_type : Option String
  handle : Option String
  deriving DecidableEq

/-- The per-item predicate inlined in `hasBeerProducts` (1064-1070):
`product_type` or `handle` contains the beer keyword. -/
def itemMatchesBeer (item : CartItem) : Bool :=
  (match item.product_type with
   | some pt => jsLowerIncludes pt beerCategory
   | none => false) ||
  (match item.handle with
   | some h => jsLowerIncludes h beerCategory
   | none => false)

/-- The per-item predicate inlined in `hasRequiredCategoryProducts`
(1081-1089). -/
def itemMatchesRequired (item : CartItem) : Bool :=
  requiredCategories.any fun category =>
    (match item.product_type with
     | some pt => jsLowerIncludes pt category
     | none => false) ||
    (match item.handle with
     | some h => jsLowerIncludes h category
     | none => false)

/-- `hasBeerProducts` of the second class (1059-1071); `none` models a
missing `window.Shopify.cart.items`. -/
def hasBeerProducts : Option (List CartItem) → Bool
  | none => false
  | some items => items.any itemMatchesBeer

/-- `hasRequiredCategoryProducts` of the second class (1076-1090). -/
def hasRequiredCategoryProducts : Option (List CartItem) → Bool
  | none => false
  | some items => items.any itemMatchesRequired

/-- `isCartValid` of the second class (1095-1103). -/
def isCartValid (cart : Option (List CartItem)) : Bool :=
  if !hasBeerProducts cart then
    true
  else
    hasRequiredCategoryProducts cart

end CartCategoryValidationV2

/-- Page environment seen by `getCartTotal`:
* `shopifyCartTotal = some t` models `window.Shopify && window.Shopify.cart`
  with `window.Shopify.cart.total_price || 0` equal to `t`;
* `dataCartTotals` is, in DOM order, `parseInt(attr || '0')` for each
  `[data-cart-total]` element (`none` for a NaN result on a non-numeric
  attribute);
* `totalsValueText` is the `textContent` of the first
  `.totals__total-value` element, when one exists. -/
structure TotalEnv where
  shopifyCartTotal : Option Nat
  dataCartTotals : List (Option Int)
  totalsValueText : Option String
  deriving DecidableEq

/-- The `for`-loop over `[data-cart-total]` elements: return the first parsed
value that is `> 0` (a NaN comparison is false, so it is skipped). -/
def firstPositiveDataTotal : List (Option Int) → Option Int
  | [] => none
  | some v :: rest => if v > 0 then some v else firstPositiveDataTotal rest
  | none :: rest => firstPositiveDataTotal rest

/-- `priceText.replace(/[^0-9]/g, '')` followed by `parseInt(·, 10) || 0`:
the decimal value of the digit characters of `s`, `0` when there is none. -/
def digitsOnlyValue (s : String) : Nat :=
  (s.toList.filter Char.isDigit).foldl (fun acc c => 10 * acc + (c.toNat - 48)) 0

namespace UnifiedCartValidator

/-- `this.minimumValue` (R$90 in cents). -/
def minimumValue : Nat := 9000

/-- `UnifiedCartValidator.getCartTotal` (unified-cart-validator.js 401-426):
the in-memory Shopify cart total when that object exists; otherwise the
first positive `[data-cart-total]` attribute; otherwise the digits of the
first `.totals__total-value` text; otherwise `0`. -/
def getCartTotal (tenv : TotalEnv) : Int :=
  match tenv.shopifyCartTotal with
  | some t => (t : Int)
  | none =>
    match firstPositiveDataTotal tenv.dataCartTotals with
    | some v => v
    | none =>
      match tenv.totalsValueText with
      | some priceText => (digitsOnlyValue priceText : Int)
      | none => 0

/-- `UnifiedCartValidator.validateMinimumValue` (389-395). -/
def validateMinimumValue (tenv : TotalEnv) : Bool :=
  getCartTotal tenv ≥ (minimumValue : Int)

end UnifiedCartValidator

namespace CartMinimumValue

/-- `this.minimumValue` of `CartMinimumValue` (R$90,00 in cents). -/
def minimumValue : Nat := 9000

/-- `this.errorMessage` of `CartMinimumValue`. -/
def errorMessage : String := "O valor mínimo para compra é de R$90,00"

/-- `CartMinimumValue.getCartTotal` (cart-minimum-value.js 172-197), the same
three-stage lookup as the unified validator's. -/
def getCartTotal (tenv : TotalEnv) : Int :=
  match tenv.shopifyCartTotal with
  | some t => (t : Int)
  | none =>
    match firstPositiveDataTotal tenv.dataCartTotals with
    | some v => v
    | none =>
      match tenv.totalsValueText with
      | some priceText => (digitsOnlyValue priceText : Int)
      | none => 0

/-- `CartMinimumValue.isCartValid` (202-206). -/
def isCartValid (tenv : TotalEnv) : Bool :=
  getCartTotal tenv ≥ (minimumValue : Int)

end CartMinimumValue

/-- Modelled from claim C6's wording, for comparison with the source
definition: read the in-memory cart object when present; "when it is absent,
[fall] back first to scraping a rendered total from the page, and only then
to reading a data attribute". -/
def getCartTotalClaimOrder (tenv : TotalEnv) : Int :=
  match tenv.shopifyCartTotal with
  | some t => (t : Int)
  | none =>
    match tenv.totalsValueText with
    | some priceText => (digitsOnlyValue priceText : Int)
    | none =>
      match firstPositiveDataTotal tenv.dataCartTotals with
      | some v => v
      | none => 0

/-- Modelled from the amended claim C6: in-memory cart object first, then the
first positive `data-cart-total` attribute, and only then the scraped
rendered total text. -/
def getCartTotalAmendedOrder (tenv : TotalEnv) : Int :=
  match tenv.shopifyCartTotal with
  | some t => (t : Int)
  | none =>
    match firstPositiveDataTotal tenv.dataCartTotals with
    | some v => v
    | none =>
      match tenv.totalsValueText with
      | some priceText => (digitsOnlyValue priceText : Int)
      | none => 0

/-- The two error kinds of the unified validator (`'category'` /
`'minimum'`, the `type` argument of `showError`/`hideError`). -/
inductive ErrType where
  | category
  | minimum
  deriving DecidableEq

/-- DOM state touched by the unified validator: the number of existing
(non-null) error containers, the `.cart-error--<type>` nodes present in the
document (most recently prepended first, each carrying its message text),
and the disabled state of the checkout buttons. -/
structure UDom where
  containers : Nat
  errors : List (ErrType × String)
  checkoutDisabled : Bool
  deriving DecidableEq

namespace UnifiedCartValidator

/-- `UnifiedCartValidator.hideError` (552-557): remove every error node of
the given type from the document. -/
def hideError (t : ErrType) (s : UDom) : UDom :=
  { s with errors := s.errors.filter fun e => e.1 != t }

/-- `UnifiedCartValidator.showError` (524-546): first remove existing errors
of the same type (`hideError`), then prepend a clone of the new error node
to every existing container. -/
def showError (t : ErrType) (message : String) (s : UDom) : UDom :=
  let s1 := hideError t s
  { s1 with errors := List.replicate s1.containers (t, message) ++ s1.errors }

/-- `UnifiedCartValidator.hideAllErrors` (562-567): remove every error
node. -/
def hideAllErrors (s : UDom) : UDom :=
  { s with errors := [] }

/-- `UnifiedCartValidator.disableCheckout` (496-504). -/
def disableCheckout (s : UDom) : UDom :=
  { s with checkoutDisabled := true }

/-- `UnifiedCartValidator.enableCheckout` (509-517). -/
def enableCheckout (s : UDom) : UDom :=
  { s with checkoutDisabled := false }

/-- Mutable state of a `UnifiedCartValidator` instance together with the DOM
it mutates: the `validationInProgress` guard, the cached rule outcomes
`this.isValid.category` / `this.isValid.minimum`, and the DOM. -/
structure VState where
  validationInProgress : Bool
  isValidCategory : Bool
  isValidMinimum : Bool
  dom : UDom
  deriving DecidableEq

/-- Body of `UnifiedCartValidator.validateCartComplete` (443-472), entered
once the `validationInProgress` guard has been passed: the guard is set,
the `try` block validates categories then minimum value and mutates the DOM
accordingly, the `catch` block returns `true` (fail open), and the
`finally` block clears the guard on every exit path.  `exc = some ()`
models a JavaScript exception raised inside the `try` block (during
classification, fetch, or DOM access). -/
def validateCartCompleteBody (env : Env) (cart : Option (List String)) (tenv : TotalEnv)
    (exc : Option Unit) (st : VState) : Bool × VState :=
  let st1 : VState := { st with validationInProgress := true }
  match exc with
  | some _ => (true, { st1 with validationInProgress := false })
  | none =>
    let categoryValidation := validateCategories env cart
    let minimumValid := validateMinimumValue tenv
    let st2 : VState :=
      { st1 with isValidCategory := categoryValidation.valid, isValidMinimum := minimumValid }
    if !categoryValidation.valid then
      (false, { st2 with
        dom := disableCheckout (showError ErrType.category categoryValidation.message st2.dom)
        validationInProgress := false })
    else if !minimumValid then
      (false, { st2 with
        dom := disableCheckout (showError ErrType.minimum minimumErrorMessage st2.dom)
        validationInProgress := false })
    else
      (true, { st2 with
        dom := enableCheckout (hideAllErrors st2.dom)
        validationInProgress := false })

/-- `UnifiedCartValidator.validateCartComplete` (432-473): when a validation
is already in progress the call only schedules a retry and no new run begins
in this turn (`none`); otherwise the body runs to completion. -/
def validateCartComplete (env : Env) (cart : Option (List String)) (tenv : TotalEnv)
    (exc : Option Unit) (st : VState) : Option (Bool × VState) :=
  if st.validationInProgress then
    none
  else
    some (validateCartCompleteBody env cart tenv exc st)

end UnifiedCartValidator

/-- DOM state touched by the two legacy validators: the shared error
container (its `textContent`, visibility, `data-error-by` and
`data-error-priority` attributes) and a checkout button (its disabled
state, `data-locked-by` and `data-lock-priority` attributes).  An absent
attribute is `none`; both scripts read a missing priority attribute as
`999` via `parseInt(attr || '999')`. -/
structure LDom where
  errorText : String
  errorVisible : Bool
  errorBy : Option String
  errorPriority : Option Nat
  checkoutDisabled : Bool
  lockedBy : Option String
  lockPriority : Option Nat
  deriving DecidableEq

namespace CartCategoryValidation

/-- `CartCategoryValidation.disableCheckout` (622-631): disables the button
and tags it `category-validator` / priority 1, unconditionally. -/
def disableCheckout (s : LDom) : LDom :=
  { s with checkoutDisabled := true
           lockedBy := some "category-validator"
           lockPriority := some 1 }

/-- The `this.errorContainer` branch of `CartCategoryValidation.showError`
(636-646): writes its message, shows the container and tags it
`category-validator` / priority 1, unconditionally.  (The drawer and
notification branches repeat the same tag discipline on separate nodes.) -/
def showError (s : LDom) : LDom :=
  { s with errorText := errorMessage
           errorVisible := true
           errorBy := some "category-validator"
           errorPriority := some 1 }

/-- The failure branch of the legacy category `validateCart` (586-590):
`disableCheckout` then `showError`. -/
def validateCartFailPath (s : LDom) : LDom :=
  showError (disableCheckout s)

end CartCategoryValidation

namespace CartMinimumValue

/-- `CartMinimumValue.disableCheckout` (289-302): locks the button only when
its own priority 2 beats the current `data-lock-priority` (read as 999 when
absent). -/
def disableCheckout (s : LDom) : LDom :=
  if 2 < s.lockPriority.getD 999 then
    { s with checkoutDisabled := true
             lockedBy := some "minimum-value-validator"
             lockPriority := some 2 }
  else
    s

/-- The `this.errorContainer` branch of `CartMinimumValue.showError`
(307-326): shows nothing when the category validator is present and
failing (`categoryShowingError`), and otherwise writes its message only
when priority 2 beats the container's current `data-error-priority`. -/
def showError (categoryShowingError : Bool) (s : LDom) : LDom :=
  if !categoryShowingError then
    if 2 < s.errorPriority.getD 999 then
      { s with errorText := errorMessage
               errorVisible := true
               errorBy := some "minimum-value-validator"
               errorPriority := some 2 }
    else
      s
  else
    s

/-- The failure branch of `CartMinimumValue.validateCart` (244-251):
`disableCheckout`, then `showError` only when the category validator is not
blocking (`categoryBlocking = categoryValidator && !categoryValidator.isValid`,
read twice: once in `validateCart` and once inside `showError`). -/
def validateCartFailPath (categoryBlocking : Bool) (s : LDom) : LDom :=
  let s1 := disableCheckout s
  if !categoryBlocking then showError categoryBlocking s1 else s1

end CartMinimumValue

namespace CartCategoryDetection
/-!
`CartCategoryDetection` (cart-category-detection.js 15-277).  The class
defines `preloadCartProductsInfo`, `fetchProductInfo`,
`fetchProductCollections`, `isBeerProduct`, `isRequiredCategoryProduct`,
`hasBeerProducts` and `hasRequiredCategoryProducts` — and no `isCartValid`.
-/

/-- `this.beerCategory` of `CartCategoryDetection`. -/
def beerCategory : String := "cerveja"

/-- `this.requiredCategories` of `CartCategoryDetection`. -/
def requiredCategories : List String := ["kit churrasco", "avulsos"]

/-- `CartCategoryDetection.isBeerProduct` (113-159), the same five
strategies as the unified classifier. -/
def isBeerProduct (env : Env) : Option Product → Bool
  | none => false
  | some product =>
    (match product.product_type with
     | some pt => jsLowerIncludes pt beerCategory
     | none => false) ||
    (match product.handle with
     | some h => jsLowerIncludes h beerCategory
     | none => false) ||
    (match product.tags with
     | some tags => tags.any fun tag => jsLowerIncludes tag beerCategory
     | none => false) ||
    ((env.collectionsOf product.id).any fun c => jsLowerIncludes c beerCategory) ||
    (match product.metafields with
     | some mfs =>
       match mfs.find? fun m => m.«namespace» == "product" && m.key == "category" with
       | some mf => jsLowerIncludes mf.value beerCategory
       | none => false
     | none => false)

/-- `CartCategoryDetection.isRequiredCategoryProduct` (166-228). -/
def isRequiredCategoryProduct (env : Env) : Option Product → Bool
  | none => false
  | some product =>
    (match product.product_type with
     | some pt => requiredCategories.any fun category => jsLowerIncludes pt category
     | none => false) ||
    (match product.handle with
     | some h => requiredCategories.any fun category => jsLowerIncludes h category
     | none => false) ||
    (match product.tags with
     | some tags => tags.any fun tag =>
         requiredCategories.any fun category => jsLowerIncludes tag category
     | none => false) ||
    ((env.collectionsOf product.id).any fun c =>
       requiredCategories.any fun category => jsLowerIncludes c category) ||
    (match product.metafields with
     | some mfs =>
       match mfs.find? fun m => m.«namespace» == "product" && m.key == "category" with
       | some mf => requiredCategories.any fun category => jsLowerIncludes mf.value category
       | none => false
     | none => false)

/-- `CartCategoryDetection.hasBeerProducts` (234-252). -/
def hasBeerProducts (env : Env) : Option (List String) → Bool
  | none => false
  | some items => items.any fun handle => isBeerProduct env (env.productOf handle)

/-- `CartCategoryDetection.hasRequiredCategoryProducts` (258-276). -/
def hasRequiredCategoryProducts (env : Env) : Option (List String) → Bool
  | none => false
  | some items => items.any fun handle => isRequiredCategoryProduct env (env.productOf handle)

end CartCategoryDetection

/-- The method table of the external detector object
(`window.cartCategoryDetection`) as the legacy validator consumes it.  The
slot for `isCartValid` is an `Option`: `none` models a class with no such
method, for which a JavaScript call raises a `TypeError`. -/
structure DetectionClass where
  hasBeerProducts : Env → Option (List String) → Bool
  hasRequiredCategoryProducts : Env → Option (List String) → Bool
  isCartValidImpl : Option (Env → Option (List String) → Bool)

/-- The concrete `CartCategoryDetection` instance: its class body
(cart-category-detection.js 15-277) defines the two `has*` methods but no
`isCartValid`, so the `isCartValid` slot is `none`. -/
def cartCategoryDetection : DetectionClass :=
  { hasBeerProducts := CartCategoryDetection.hasBeerProducts
    hasRequiredCategoryProducts := CartCategoryDetection.hasRequiredCategoryProducts
    isCartValidImpl := none }

/-- The JavaScript call `detector.isCartValid()`: a `TypeError` when the
method does not exist, its result otherwise. -/
def callIsCartValid (d : DetectionClass) (env : Env) (cart : Option (List String)) :
    Except Unit Bool :=
  match d.isCartValidImpl with
  | some f => Except.ok (f env cart)
  | none => Except.error ()

namespace CartCategoryValidation

/-- The detector branch of the legacy `CartCategoryValidation.validateCart`
(cart-category-validation.js 539-553), producing `validationResult`: when
`window.cartCategoryDetection` exists, `await
window.cartCategoryDetection.isCartValid()` is attempted and any exception
falls back to the internal `isCartValid`; without the detector the internal
`isCartValid` is used directly. -/
def validateCartResult (detector : Option DetectionClass) (env : Env)
    (cart : Option (List String)) : Bool :=
  match detector with
  | some d =>
    match callIsCartValid d env cart with
    | Except.ok b => b
    | Except.error _ => isCartValid env cart
  | none => isCartValid env cart

/-- The legacy async `CartCategoryValidation.validateCart` (507-617) as a
validity computation with its outer `try`/`catch`: an exception
(`exc = some ()`) is caught, `this.isValid` is set to `true` and `true` is
returned (601-605); otherwise the result is `validationResult` computed by
the detector branch. -/
def validateCartE (exc : Option Unit) (detector : Option DetectionClass) (env : Env)
    (cart : Option (List String)) : Bool :=
  match exc with
  | some _ => true
  | none => validateCartResult detector env cart

/-- The replacement `validateCart` that `findMinimumValueValidator`
installs on the minimum-value validator (cart-category-validation.js
85-116): when the category validation has failed (`categoryFailed`,
line 104) it returns `false` without running the original; otherwise it
runs the original `validateCart` and returns `false` from its `catch`
branch (112-115) when that call throws. -/
def overriddenMinimumValidateCart (categoryFailed : Bool)
    (original : Except Unit Bool) : Bool :=
  if categoryFailed then
    false
  else
    match original with
    | Except.ok b => b
    | Except.error _ => false

end CartCategoryValidation

/-!
Concrete page environments and states used by witnesses and
counterexamples (spec section 8, scenarios A-C). -/

/-- A small concrete store: a beer product (by handle), a required-category
product (by handle and tag), a neutral product, and no collection data. -/
def envW : Env :=
  { productOf := fun h =>
      if h = "ipa-cerveja" then
        some { id := some 1, product_type := none, handle := some "ipa-cerveja",
               tags := none, metafields := none }
      else if h = "kit-churrasco-completo" then
        some { id := some 2, product_type := none, handle := some "kit-churrasco-completo",
               tags := some ["kit churrasco"], metafields := none }
      else if h = "refrigerante" then
        some { id := some 3, product_type := none, handle := some "refrigerante",
               tags := none, metafields := none }
      else none
    collectionsOf := fun _ => [] }

/-- A total environment whose in-memory cart totals 5000 cents (below the
9000 minimum). -/
def tenvLow : TotalEnv := ⟨some 5000, [], none⟩

/-- A total environment whose in-memory cart totals 12000 cents. -/
def tenvHigh : TotalEnv := ⟨some 12000, [], none⟩

/-- An idle unified-validator state: guard clear, one error container, no
error nodes, checkout enabled. -/
def stClean : UnifiedCartValidator.VState :=
  ⟨false, true, true, ⟨1, [], false⟩⟩

/-- An idle unified-validator state in which a minimum-value error node from
an earlier run is still in the DOM (reached by validating a beer-free cart
below the minimum, then adding a beer item). -/
def stStale : UnifiedCartValidator.VState :=
  ⟨false, true, false, ⟨1, [(ErrType.minimum, UnifiedCartValidator.minimumErrorMessage)], true⟩⟩

/-- `List.filter` with the same predicate twice equals one pass. -/
theorem filter_self_idem {α : Type} (p : α → Bool) (l : List α) :
    (l.filter p).filter p = l.filter p := by
  induction l with
  | nil => rfl
  | cons a l ih => by_cases h : p a <;> simp [List.filter_cons, h, ih]

/-- Filtering away type `t` erases a replicated block of `t`-errors. -/
theorem filter_bne_replicate (n : Nat) (t : ErrType) (m : String)
    (l : List (ErrType × String)) :
    (List.replicate n (t, m) ++ l).filter (fun e => e.1 != t) =
      l.filter (fun e => e.1 != t) := by
  induction n with
  | zero => rfl
  | succ k ih => simp [List.replicate_succ, List.filter_cons, ih]

/-- When `validateCategories` reports invalid its message is the configured
category error message. -/
theorem validateCategories_message_of_invalid (env : Env) (cart : Option (List String))
    (h : (UnifiedCartValidator.validateCategories env cart).valid = false) :
    (UnifiedCartValidator.validateCategories env cart).message =
      UnifiedCartValidator.categoryErrorMessage := by
  unfold UnifiedCartValidator.validateCategories at h ⊢
  cases hb : UnifiedCartValidator.hasBeerProducts env cart <;> simp [hb] at h ⊢
  cases hr : UnifiedCartValidator.hasRequiredCategoryProducts env cart <;>
    simp [hr] at h ⊢

/-- Claim C1: for every cart containing at least one line item classified as
matching the restricted keyword, the category rule evaluates valid iff at
least one line item matches a required keyword — for the unified
`validateCategories` and for the legacy `CartCategoryValidation.isCartValid`. -/
theorem claim_C1 : ∀ (env : Env) (items : List String),
    ((∃ h ∈ items, UnifiedCartValidator.isBeerProduct env (env.productOf h) = true) →
      ((UnifiedCartValidator.validateCategories env (some items)).valid = true ↔
        ∃ h ∈ items, UnifiedCartValidator.isRequiredCategoryProduct env (env.productOf h) = true)) ∧
    ((∃ h ∈ items, CartCategoryValidation.isBeerProduct env (env.productOf h) = true) →
      (CartCategoryValidation.isCartValid env (some items) = true ↔
        ∃ h ∈ items, CartCategoryValidation.isRequiredCategoryProduct env (env.productOf h) = true)) := by
  intro env items
  constructor
  · intro hbeer
    have hb : UnifiedCartValidator.hasBeerProducts env (some items) = true := by
      simpa [UnifiedCartValidator.hasBeerProducts, List.any_eq_true] using hbeer
    simp [UnifiedCartValidator.validateCategories, hb,
      UnifiedCartValidator.hasRequiredCategoryProducts, List.any_eq_true]
  · intro hbeer
    have hb : CartCategoryValidation.hasBeerProducts env (some items) = true := by
      simpa [CartCategoryValidation.hasBeerProducts, List.any_eq_true] using hbeer
    simp [CartCategoryValidation.isCartValid, hb,
      CartCategoryValidation.hasRequiredCategoryProducts, List.any_eq_true]

/-- Witness for C1 at a concrete beer-plus-kit cart. -/
theorem claim_C1_witness :
    (((UnifiedCartValidator.validateCategories envW
        (some ["ipa-cerveja", "kit-churrasco-completo"])).valid = true) ↔
      ∃ h ∈ ["ipa-cerveja", "kit-churrasco-completo"],
        UnifiedCartValidator.isRequiredCategoryProduct envW (envW.productOf h) = true) ∧
    ((CartCategoryValidation.isCartValid envW
        (some ["ipa-cerveja", "kit-churrasco-completo"]) = true) ↔
      ∃ h ∈ ["ipa-cerveja", "kit-churrasco-completo"],
        CartCategoryValidation.isRequiredCategoryProduct envW (envW.productOf h) = true) :=
  ⟨(claim_C1 envW ["ipa-cerveja", "kit-churrasco-completo"]).1
      ⟨"ipa-cerveja", by decide, by decide⟩,
   (claim_C1 envW ["ipa-cerveja", "kit-churrasco-completo"]).2
      ⟨"ipa-cerveja", by decide, by decide⟩⟩

/-- Claim C2: for every cart with no line item matching the restricted
keyword, the category rule evaluates valid regardless of other contents —
for the unified `validateCategories` and for the second legacy
`isCartValid` (cart-category-validation.js 1095-1103). -/
theorem claim_C2 : ∀ (env : Env) (cart : Option (List String))
    (cart2 : Option (List CartCategoryValidationV2.CartItem)),
    (∀ h ∈ cart.getD [], UnifiedCartValidator.isBeerProduct env (env.productOf h) = false) →
    (∀ it ∈ cart2.getD [], CartCategoryValidationV2.itemMatchesBeer it = false) →
    (UnifiedCartValidator.validateCategories env cart).valid = true ∧
    CartCategoryValidationV2.isCartValid cart2 = true := by
  intro env cart cart2 h1 h2
  constructor
  · cases cart with
    | none =>
      simp [UnifiedCartValidator.validateCategories, UnifiedCartValidator.hasBeerProducts]
    | some items =>
      have hb : UnifiedCartValidator.hasBeerProducts env (some items) = false := by
        simp only [UnifiedCartValidator.hasBeerProducts, List.any_eq_false]
        intro h hh
        simpa using h1 h hh
      simp [UnifiedCartValidator.validateCategories, hb]
  · cases cart2 with
    | none =>
      simp [CartCategoryValidationV2.isCartValid, CartCategoryValidationV2.hasBeerProducts]
    | some items =>
      have hb : CartCategoryValidationV2.hasBeerProducts (some items) = false := by
        simp only [CartCategoryValidationV2.hasBeerProducts, List.any_eq_false]
        intro it hit
        simpa using h2 it hit
      simp [CartCategoryValidationV2.isCartValid, hb]

/-- Witness for C2 at a concrete beer-free cart. -/
theorem claim_C2_witness :
    (UnifiedCartValidator.validateCategories envW (some ["refrigerante"])).valid = true ∧
    CartCategoryValidationV2.isCartValid
      (some [{ product_type := none, handle := some "refrigerante" }]) = true :=
  claim_C2 envW (some ["refrigerante"])
    (some [{ product_type := none, handle := some "refrigerante" }])
    (by decide) (by decide)

/-- Claim C3: the minimum-value rule evaluates valid iff the cart subtotal
is at least 9000 minor units, for the unified `validateMinimumValue` and
the legacy `CartMinimumValue.isCartValid`; subtotal 9000 is valid and 8999
is invalid. -/
theorem claim_C3 :
    (∀ tenv : TotalEnv,
      (UnifiedCartValidator.validateMinimumValue tenv = true ↔
        UnifiedCartValidator.getCartTotal tenv ≥ 9000) ∧
      (CartMinimumValue.isCartValid tenv = true ↔
        CartMinimumValue.getCartTotal tenv ≥ 9000)) ∧
    UnifiedCartValidator.validateMinimumValue ⟨some 9000, [], none⟩ = true ∧
    UnifiedCartValidator.validateMinimumValue ⟨some 8999, [], none⟩ = false ∧
    CartMinimumValue.isCartValid ⟨some 9000, [], none⟩ = true ∧
    CartMinimumValue.isCartValid ⟨some 8999, [], none⟩ = false := by
  refine ⟨fun tenv => ⟨?_, ?_⟩, by decide, by decide, by decide, by decide⟩ <;>
    simp [UnifiedCartValidator.validateMinimumValue, CartMinimumValue.isCartValid,
      UnifiedCartValidator.minimumValue, CartMinimumValue.minimumValue]

/-- Counterexample to claim C6 as stated: with no in-memory cart object, a
`data-cart-total` attribute of 5000 and a rendered total reading
"R$ 70,00", both readers return the data attribute's 5000, not the scraped
7000 the claim's fallback order ("first ... a rendered total ... only then
... a data attribute") would produce. -/
theorem claim_C6_counterexample :
    UnifiedCartValidator.getCartTotal ⟨none, [some 5000], some "R$ 70,00"⟩ = 5000 ∧
    CartMinimumValue.getCartTotal ⟨none, [some 5000], some "R$ 70,00"⟩ = 5000 ∧
    getCartTotalClaimOrder ⟨none, [some 5000], some "R$ 70,00"⟩ = 7000 ∧
    UnifiedCartValidator.getCartTotal ⟨none, [some 5000], some "R$ 70,00"⟩ ≠
      getCartTotalClaimOrder ⟨none, [some 5000], some "R$ 70,00"⟩ := by
  refine ⟨by decide, by decide, by decide, by decide⟩

/-- Claim C6, amended: both cart-subtotal readers use the in-memory cart
object when present; when absent they fall back first to the
`data-cart-total` attribute and only then to scraping the rendered total
text. -/
theorem claim_C6 : ∀ tenv : TotalEnv,
    UnifiedCartValidator.getCartTotal tenv = getCartTotalAmendedOrder tenv ∧
    CartMinimumValue.getCartTotal tenv = getCartTotalAmendedOrder tenv :=
  fun _ => ⟨rfl, rfl⟩

/-- Claim C8: the unified classifiers treat a wholly absent product record,
and every missing inspected field (product type, handle, tags, collections
attribute, `product`/`category` metafield), as non-matching, returning
`false` rather than an error. -/
theorem claim_C8 : ∀ env : Env,
    UnifiedCartValidator.isBeerProduct env none = false ∧
    UnifiedCartValidator.isRequiredCategoryProduct env none = false ∧
    ∀ p : Product, p.product_type = none → p.handle = none → p.tags = none →
      p.metafields = none → env.collectionsOf p.id = [] →
      UnifiedCartValidator.isBeerProduct env (some p) = false ∧
      UnifiedCartValidator.isRequiredCategoryProduct env (some p) = false := by
  intro env
  refine ⟨rfl, rfl, ?_⟩
  intro p h1 h2 h3 h4 h5
  constructor <;>
    simp [UnifiedCartValidator.isBeerProduct, UnifiedCartValidator.isRequiredCategoryProduct,
      h1, h2, h3, h4, h5]

/-- Witness for C8 at a concrete product record with every inspected field
absent. -/
theorem claim_C8_witness :
    UnifiedCartValidator.isBeerProduct envW
      (some { id := some 7, product_type := none, handle := none,
              tags := none, metafields := none }) = false ∧
    UnifiedCartValidator.isRequiredCategoryProduct envW
      (some { id := some 7, product_type := none, handle := none,
              tags := none, metafields := none }) = false :=
  (claim_C8 envW).2.2
    { id := some 7, product_type := none, handle := none,
      tags := none, metafields := none } rfl rfl rfl rfl rfl

/-- Claim C10: the `CartCategoryDetection` class defines no `isCartValid`
method, so the legacy detector branch always raises, is caught, and falls
back to the internal rule; the legacy validation result is therefore the
same with or without the external detector. -/
theorem claim_C10 :
    cartCategoryDetection.isCartValidImpl = none ∧
    ∀ (env : Env) (cart : Option (List String)),
      CartCategoryValidation.validateCartResult (some cartCategoryDetection) env cart =
        CartCategoryValidation.validateCartResult none env cart :=
  ⟨rfl, fun _ _ => rfl⟩

/-- Counterexample to claim C4 as stated: on a cart where both rules fail,
starting from the reachable DOM state in which an earlier run left a
minimum-value error node (`stStale`), the unified run prepends the category
error but does not remove the minimum-value node, so a minimum-value
validator message is still visible. -/
theorem claim_C4_counterexample :
    (UnifiedCartValidator.validateCategories envW (some ["ipa-cerveja"])).valid = false ∧
    UnifiedCartValidator.validateMinimumValue tenvLow = false ∧
    (ErrType.minimum, UnifiedCartValidator.minimumErrorMessage) ∈
      (UnifiedCartValidator.validateCartCompleteBody envW (some ["ipa-cerveja"])
        tenvLow none stStale).2.dom.errors := by
  refine ⟨by decide, by decide, by decide⟩

/-- Claim C4, amended: when both rules fail, the unified run reports
invalid, disables checkout, and prepends the category error to every
container while touching no other-type node (so the run itself never shows
the minimum-value message, though a stale one from an earlier run is left
in place); in the legacy dual-validator design the error container's
`data-error-by` tag and the button's `data-locked-by`/`data-lock-priority`
tags end at `category-validator` / priority 1 after both validators' fail
paths, in either execution order. -/
theorem claim_C4 :
    (∀ (env : Env) (cart : Option (List String)) (tenv : TotalEnv)
        (st : UnifiedCartValidator.VState),
      (UnifiedCartValidator.validateCategories env cart).valid = false →
      UnifiedCartValidator.validateMinimumValue tenv = false →
      (UnifiedCartValidator.validateCartCompleteBody env cart tenv none st).1 = false ∧
      (UnifiedCartValidator.validateCartCompleteBody env cart tenv none st).2.dom.errors =
        List.replicate st.dom.containers
            (ErrType.category, UnifiedCartValidator.categoryErrorMessage) ++
          st.dom.errors.filter (fun e => e.1 != ErrType.category) ∧
      (UnifiedCartValidator.validateCartCompleteBody env cart tenv none
        st).2.dom.checkoutDisabled = true) ∧
    (∀ (s : LDom) (b : Bool),
      ((CartMinimumValue.validateCartFailPath true
          (CartCategoryValidation.validateCartFailPath s)).errorBy =
            some "category-validator" ∧
        (CartMinimumValue.validateCartFailPath true
          (CartCategoryValidation.validateCartFailPath s)).errorText =
            CartCategoryValidation.errorMessage ∧
        (CartMinimumValue.validateCartFailPath true
          (CartCategoryValidation.validateCartFailPath s)).lockedBy =
            some "category-validator" ∧
        (CartMinimumValue.validateCartFailPath true
          (CartCategoryValidation.validateCartFailPath s)).lockPriority = some 1) ∧
      ((CartCategoryValidation.validateCartFailPath
          (CartMinimumValue.validateCartFailPath b s)).errorBy =
            some "category-validator" ∧
        (CartCategoryValidation.validateCartFailPath
          (CartMinimumValue.validateCartFailPath b s)).errorText =
            CartCategoryValidation.errorMessage ∧
        (CartCategoryValidation.validateCartFailPath
          (CartMinimumValue.validateCartFailPath b s)).lockedBy =
            some "category-validator" ∧
        (CartCategoryValidation.validateCartFailPath
          (CartMinimumValue.validateCartFailPath b s)).lockPriority = some 1)) := by
  constructor
  · intro env cart tenv st hcv hmv
    have hmsg := validateCategories_message_of_invalid env cart hcv
    refine ⟨?_, ?_, ?_⟩ <;>
      simp [UnifiedCartValidator.validateCartCompleteBody, hcv, hmsg,
        UnifiedCartValidator.showError, UnifiedCartValidator.hideError,
        UnifiedCartValidator.disableCheckout]
  · intro s b
    constructor
    · refine ⟨?_, ?_, ?_, ?_⟩ <;>
        simp [CartMinimumValue.validateCartFailPath, CartMinimumValue.disableCheckout,
          CartMinimumValue.showError, CartCategoryValidation.validateCartFailPath,
          CartCategoryValidation.disableCheckout, CartCategoryValidation.showError]
    · refine ⟨?_, ?_, ?_, ?_⟩ <;>
        simp [CartCategoryValidation.validateCartFailPath,
          CartCategoryValidation.disableCheckout, CartCategoryValidation.showError]

/-- Witness for C4 at a concrete both-failing cart from a clean DOM
state. -/
theorem claim_C4_witness :
    (UnifiedCartValidator.validateCartCompleteBody envW (some ["ipa-cerveja"])
      tenvLow none stClean).1 = false ∧
    (UnifiedCartValidator.validateCartCompleteBody envW (some ["ipa-cerveja"])
      tenvLow none stClean).2.dom.errors =
      List.replicate stClean.dom.containers
          (ErrType.category, UnifiedCartValidator.categoryErrorMessage) ++
        stClean.dom.errors.filter (fun e => e.1 != ErrType.category) ∧
    (UnifiedCartValidator.validateCartCompleteBody envW (some ["ipa-cerveja"])
      tenvLow none stClean).2.dom.checkoutDisabled = true :=
  claim_C4.1 envW (some ["ipa-cerveja"]) tenvLow stClean (by decide) (by decide)

/-- Counterexample to claim C5 as stated: the `validateCart` replacement
installed on the minimum-value validator returns `false`, not `true`, in
its `catch` branch (cart-category-validation.js 112-115) when the wrapped
original validation throws. -/
theorem claim_C5_counterexample :
    CartCategoryValidation.overriddenMinimumValidateCart false (Except.error ()) = false := by
  decide

/-- Claim C5, amended: an exception inside any of the cited validation entry
points is caught rather than propagated; the unified
`validateCartComplete`, the legacy `isCartValid` and the legacy
`validateCart` return `true` (fail open, checkout allowed) from their
`catch` branches, but the overridden minimum-value `validateCart` returns
`false` from its `catch` branch (a value its callers ignore). -/
theorem claim_C5 :
    (∀ (env : Env) (cart : Option (List String)) (tenv : TotalEnv)
        (st : UnifiedCartValidator.VState),
      UnifiedCartValidator.validateCartComplete env cart tenv (some ())
          { st with validationInProgress := false } =
        some (true, { st with validationInProgress := false })) ∧
    (∀ (env : Env) (cart : Option (List String)),
      CartCategoryValidation.isCartValidE (some ()) env cart = true) ∧
    (∀ (detector : Option DetectionClass) (env : Env) (cart : Option (List String)),
      CartCategoryValidation.validateCartE (some ()) detector env cart = true) ∧
    (∀ categoryFailed : Bool,
      CartCategoryValidation.overriddenMinimumValidateCart categoryFailed
        (Except.error ()) = false) := by
  refine ⟨fun env cart tenv st => rfl, fun env cart => rfl, fun d env cart => rfl, ?_⟩
  intro categoryFailed
  cases categoryFailed <;> rfl

/-- Claim C7: running the unified combined validation twice in succession
on the same unchanged cart yields the same outcome and the same DOM state
as running it once (`showError` removes same-type nodes before inserting,
so nothing accumulates). -/
theorem claim_C7 : ∀ (env : Env) (cart : Option (List String)) (tenv : TotalEnv)
    (st : UnifiedCartValidator.VState),
    UnifiedCartValidator.validateCartComplete env cart tenv none
        { st with validationInProgress := false } =
      some (UnifiedCartValidator.validateCartCompleteBody env cart tenv none
        { st with validationInProgress := false }) ∧
    UnifiedCartValidator.validateCartComplete env cart tenv none
        (UnifiedCartValidator.validateCartCompleteBody env cart tenv none
          { st with validationInProgress := false }).2 =
      some (UnifiedCartValidator.validateCartCompleteBody env cart tenv none
        { st with validationInProgress := false }) := by
  intro env cart tenv st
  constructor
  · rfl
  · cases hcv : (UnifiedCartValidator.validateCategories env cart).valid <;>
      cases hmv : UnifiedCartValidator.validateMinimumValue tenv <;>
      simp [UnifiedCartValidator.validateCartComplete,
        UnifiedCartValidator.validateCartCompleteBody, hcv, hmv,
        UnifiedCartValidator.showError, UnifiedCartValidator.hideError,
        UnifiedCartValidator.hideAllErrors, UnifiedCartValidator.disableCheckout,
        UnifiedCartValidator.enableCheckout, List.filter_append,
        filter_bne_replicate, filter_self_idem]

/-- Claim C9: every invocation of the unified `validateCartComplete` that
begins a run leaves `validationInProgress` cleared when it completes — on
the success path, on both early-return failure paths, and when an
exception is caught. -/
theorem claim_C9 : ∀ (env : Env) (cart : Option (List String)) (tenv : TotalEnv)
    (exc : Option Unit) (st : UnifiedCartValidator.VState)
    (r : Bool × UnifiedCartValidator.VState),
    UnifiedCartValidator.validateCartComplete env cart tenv exc st = some r →
    r.2.validationInProgress = false := by
  intro env cart tenv exc st r h
  by_cases hp : st.validationInProgress
  · simp [UnifiedCartValidator.validateCartComplete, hp] at h
  · simp [UnifiedCartValidator.validateCartComplete, hp] at h
    rw [← h]
    cases exc with
    | some u => rfl
    | none =>
      cases hcv : (UnifiedCartValidator.validateCategories env cart).valid <;>
        cases hmv : UnifiedCartValidator.validateMinimumValue tenv <;>
        simp [UnifiedCartValidator.validateCartCompleteBody, hcv, hmv]

/-- Witness for C9 at a concrete run that begins from an idle state. -/
theorem claim_C9_witness :
    (UnifiedCartValidator.validateCartCompleteBody envW (some ["refrigerante"])
      tenvHigh none stClean).2.validationInProgress = false :=
  claim_C9 envW (some ["refrigerante"]) tenvHigh none stClean
    (UnifiedCartValidator.validateCartCompleteBody envW (some ["refrigerante"])
      tenvHigh none stClean) rfl
